import Mathlib

/-!
Shallow embedding of `src/youtube2zim/youtube.py` (the extraction-and-caching
pipeline of the openzim_youtube repository) and proofs about its behaviour.

Modelling conventions:
* The on-disk JSON cache (`load_json` / `save_json` from the missing utils
  module, specified in the spec as the Cache Store, get/put over string keys)
  is a function `String → Option CacheVal`; `save_json` overwrites.
* Remote HTTP traffic is scripted by an `Env`: each endpoint maps the request
  parameters the source sends to the sequence of responses the remote will
  give, one entry per issued request.  An `Except.error` entry models a
  response whose status makes `raise_for_status` raise.
* Every operation returns, besides its result, the final cache, the number of
  HTTP requests issued, and the chronological list of cache writes performed.
* Python dicts holding author info are association lists updated in place.
-/

namespace OpenZimYoutube

/-- Failure outcomes of the pipeline's operations.  `httpError` is a
non-2xx response surfaced by `raise_for_status`; `notFound` is the
KeyError/IndexError path of an empty `items` array; `noResponse` marks the
model running out of scripted responses mid-pagination; `typeError` is the
failure Python would raise when a cached blob does not have the shape the
caller subscripts; `unsupported` is `NotImplementedError`;
`thumbnailNotFound` is the `Exception("Thumbnail not found")` raise. -/
inductive Err
  | httpError
  | notFound
  | noResponse
  | typeError
  | unsupported
  | thumbnailNotFound
deriving DecidableEq, Repr

/-- The fields of a YouTube Channel JSON record that the source reads:
`["id"]`, `["snippet"]["thumbnails"]` (a quality-keyed map of URLs) and
`["contentDetails"]["relatedPlaylists"]["uploads"]`. -/
structure ChannelJson where
  id : String
  thumbnails : List (String × String)
  uploads : String
deriving DecidableEq, Repr

/-- The snippet fields of a YouTube Playlist JSON record that
`Playlist.from_id` reads. -/
structure PlaylistJson where
  title : String
  description : String
  channelId : String
  channelTitle : String
deriving DecidableEq, Repr

/-- An item of the playlists-listing response; the source reads only
`p["id"]` from it. -/
structure PlaylistListItem where
  id : String
deriving DecidableEq, Repr

/-- A PlaylistItem record: the snippet fields the filter predicates read. -/
structure VideoItem where
  title : String
  description : String
  publishedAt : String
deriving DecidableEq, Repr

/-- An item of the videos-listing response used by the author resolver:
`item["id"]`, `item["snippet"]["channelId"]`, `item["snippet"]["channelTitle"]`. -/
structure VideoListItem where
  id : String
  channelId : String
  channelTitle : String
deriving DecidableEq, Repr

/-- The value stored per video id by the author resolver. -/
structure AuthorInfo where
  channelId : String
  channelTitle : String
deriving DecidableEq, Repr

/-- A JSON blob as persisted in the cache directory: one constructor per
shape of blob the source writes. -/
inductive CacheVal
  | channel (c : ChannelJson)
  | playlistItems (xs : List PlaylistListItem)
  | playlist (p : PlaylistJson)
  | videos (vs : List VideoItem)
  | authors (m : List (String × AuthorInfo))
deriving DecidableEq, Repr

/-- The cache directory: a key-to-blob map (spec §4.1 Cache Store). -/
abbrev Cache := String → Option CacheVal

/-- Modelled from the spec: `load_json` of the missing utils module, the
Cache Store's get — returns the blob stored under the key, or absence. -/
def load_json (c : Cache) (k : String) : Option CacheVal := c k

/-- Modelled from the spec: `save_json` of the missing utils module, the
Cache Store's put — always overwrites the key. -/
def save_json (c : Cache) (k : String) (v : CacheVal) : Cache :=
  fun k2 => if k2 = k then some v else c k2

/-- Modelled from the spec: `get_slug` of the missing utils module is a pure,
deterministic function of the title (spec §3); no claim depends on its value,
so any pure function is a faithful stand-in. -/
def get_slug (title : String) : String := title

/-- One page of a paginated listing response: the `items` array plus the
optional `nextPageToken` field. -/
abbrev PageResp (α : Type) := Except Err (List α × Option String)

/-- Truthiness of `page_token` in `if not page_token: break`: Python treats
both a missing token and an empty string as falsy. -/
def tokenTruthy : Option String → Bool
  | none => false
  | some s => if s = "" then false else true

/-- The scripted remote API (spec §6).  Each field maps the request
parameters the source sends to the response(s) the remote will return; for
paginated endpoints the list holds one entry per successive request of the
pagination loop. -/
structure Env where
  channels : String → Bool → Except Err (List ChannelJson)
  playlistsList : String → List (PageResp PlaylistListItem)
  playlistLookup : String → Except Err (List PlaylistJson)
  playlistItemsList : String → List (PageResp VideoItem)
  videosLookup : List String → List (PageResp VideoListItem)

/-- Outcome of an accessor: result (the returned blob or the raised error),
final cache, number of HTTP requests issued, chronological cache writes. -/
abbrev FetchResult := Except Err CacheVal × Cache × Nat × List (String × CacheVal)

/-- `get_channel_json(channel_id, for_username=...)`: read the cache at
`channel_{id}`; on miss, one channels-API request; empty/missing `items`
raises (NotFound); otherwise `items[0]` is saved and returned. -/
def get_channel_json (env : Env) (cache : Cache) (channel_id : String)
    (for_username : Bool) : FetchResult :=
  let fname := "channel_" ++ channel_id
  match load_json cache fname with
  | some v => (.ok v, cache, 0, [])
  | none =>
    match env.channels channel_id for_username with
    | .error e => (.error e, cache, 1, [])
    | .ok items =>
      match items with
      | [] => (.error .notFound, cache, 1, [])
      | c :: _ =>
        (.ok (.channel c), save_json cache fname (.channel c), 1,
          [(fname, .channel c)])

/-- The pagination loop of `get_channel_playlists_json`: one request per
iteration; after every page the accumulated `items` list is saved under
`fname`; the loop continues while `nextPageToken` is truthy. -/
def fetchPlaylistsPages (fname : String) (cache : Cache)
    (acc : List PlaylistListItem) :
    List (PageResp PlaylistListItem) → FetchResult
  | [] => (.error .noResponse, cache, 1, [])
  | .error e :: _ => (.error e, cache, 1, [])
  | .ok (pageItems, tok) :: rest =>
    let items := acc ++ pageItems
    let cache1 := save_json cache fname (.playlistItems items)
    if tokenTruthy tok then
      match fetchPlaylistsPages fname cache1 items rest with
      | (r, c, n, ws) => (r, c, n + 1, (fname, .playlistItems items) :: ws)
    else
      (.ok (.playlistItems items), cache1, 1, [(fname, .playlistItems items)])

/-- `get_channel_playlists_json(channel_id)`: read the cache at
`channel_{id}_playlists`; on miss, paginate with per-page persistence. -/
def get_channel_playlists_json (env : Env) (cache : Cache)
    (channel_id : String) : FetchResult :=
  let fname := "channel_" ++ channel_id ++ "_playlists"
  match load_json cache fname with
  | some v => (.ok v, cache, 0, [])
  | none => fetchPlaylistsPages fname cache [] (env.playlistsList channel_id)

/-- `get_playlist_json(playlist_id)`: read the cache at `playlist_{id}`; on
miss, one playlists-API request; empty `items` raises (NotFound); otherwise
`items[0]` is saved and returned. -/
def get_playlist_json (env : Env) (cache : Cache) (playlist_id : String) :
    FetchResult :=
  let fname := "playlist_" ++ playlist_id
  match load_json cache fname with
  | some v => (.ok v, cache, 0, [])
  | none =>
    match env.playlistLookup playlist_id with
    | .error e => (.error e, cache, 1, [])
    | .ok items =>
      match items with
      | [] => (.error .notFound, cache, 1, [])
      | p :: _ =>
        (.ok (.playlist p), save_json cache fname (.playlist p), 1,
          [(fname, .playlist p)])

/-- The pagination loop of `get_videos_json`: one request per iteration,
accumulating `items`; nothing is persisted inside the loop. -/
def fetchVideoPages (acc : List VideoItem) :
    List (PageResp VideoItem) → Except Err (List VideoItem) × Nat
  | [] => (.error .noResponse, 1)
  | .error e :: _ => (.error e, 1)
  | .ok (pageItems, tok) :: rest =>
    let items := acc ++ pageItems
    if tokenTruthy tok then
      match fetchVideoPages items rest with
      | (r, n) => (r, n + 1)
    else
      (.ok items, 1)

/-- `get_videos_json(playlist_id)`: read the cache at
`playlist_{id}_videos`; on miss, paginate, then save the full list once,
after the loop. -/
def get_videos_json (env : Env) (cache : Cache) (playlist_id : String) :
    FetchResult :=
  let fname := "playlist_" ++ playlist_id ++ "_videos"
  match load_json cache fname with
  | some v => (.ok v, cache, 0, [])
  | none =>
    match fetchVideoPages [] (env.playlistItemsList playlist_id) with
    | (.error e, n) => (.error e, cache, n, [])
    | (.ok items, n) =>
      (.ok (.videos items), save_json cache fname (.videos items), n,
        [(fname, .videos items)])

/-- `MAX_VIDEOS_PER_REQUEST = 50`: cap on video ids per videos-API request. -/
def MAX_VIDEOS_PER_REQUEST : Nat := 50

/-- `dict.update({k: v})` on an insertion-ordered association list: replace
the value in place when the key is present, else append. -/
def updAssoc (d : List (String × AuthorInfo)) (k : String) (v : AuthorInfo) :
    List (String × AuthorInfo) :=
  if (d.lookup k).isSome then
    d.map (fun kv => if kv.1 = k then (k, v) else kv)
  else d ++ [(k, v)]

/-- `dict.update(other)`: fold the updates of `other` into `d` in order. -/
def dictUpdate (d other : List (String × AuthorInfo)) :
    List (String × AuthorInfo) :=
  other.foldl (fun d kv => updAssoc d kv.1 kv.2) d

/-- The pagination loop of `retrieve_videos_for` (inner helper of
`get_videos_authors_info`): one request per iteration; each response item is
folded into `req_items` keyed by the item's video id. -/
def retrieve_videos_for_pages (acc : List (String × AuthorInfo)) :
    List (PageResp VideoListItem) →
    Except Err (List (String × AuthorInfo)) × Nat
  | [] => (.error .noResponse, 1)
  | .error e :: _ => (.error e, 1)
  | .ok (pageItems, tok) :: rest =>
    let m := pageItems.foldl
      (fun d it => updAssoc d it.id ⟨it.channelId, it.channelTitle⟩) acc
    if tokenTruthy tok then
      match retrieve_videos_for_pages m rest with
      | (r, n) => (r, n + 1)
    else
      (.ok m, 1)

/-- Bounded-iteration form of the slicing loop `range(0, len(xs), n)`: the
fuel argument bounds the number of iterations; `chunksOf` supplies
`xs.length` as fuel, which never runs out while elements remain (each
iteration consumes at least one element when `n ≠ 0`). -/
def chunksOfAux (n : Nat) : Nat → List String → List (List String)
  | 0, _ => []
  | _ + 1, [] => []
  | k + 1, x :: xs =>
    (x :: xs).take n :: chunksOfAux n k ((x :: xs).drop n)

/-- `range(0, len(xs), n)` slicing: consecutive chunks of at most `n`
elements, as in `videos_ids[interv : interv + MAX_VIDEOS_PER_REQUEST]`. -/
def chunksOf (n : Nat) (xs : List String) : List (List String) :=
  chunksOfAux n xs.length xs

/-- The chunk loop of `get_videos_authors_info`: for each chunk run the
paginated bulk lookup and `items.update(...)` the result into the
accumulator; a failing chunk aborts the whole operation. -/
def authorsChunksLoop (env : Env) (acc : List (String × AuthorInfo)) :
    List (List String) → Except Err (List (String × AuthorInfo)) × Nat
  | [] => (.ok acc, 0)
  | chunk :: rest =>
    match retrieve_videos_for_pages [] (env.videosLookup chunk) with
    | (.error e, n) => (.error e, n)
    | (.ok m, n) =>
      match authorsChunksLoop env (dictUpdate acc m) rest with
      | (r, n2) => (r, n + n2)

/-- `get_videos_authors_info(videos_ids)`: read the cache at the fixed key
`videos_channels` (independent of the input ids); on miss, split the ids
into chunks of at most `MAX_VIDEOS_PER_REQUEST`, run the bulk lookup per
chunk, merge, and save the merged mapping once. -/
def get_videos_authors_info (env : Env) (cache : Cache)
    (videos_ids : List String) : FetchResult :=
  match load_json cache "videos_channels" with
  | some v => (.ok v, cache, 0, [])
  | none =>
    match authorsChunksLoop env [] (chunksOf MAX_VIDEOS_PER_REQUEST videos_ids) with
    | (.error e, n) => (.error e, cache, n, [])
    | (.ok items, n) =>
      (.ok (.authors items), save_json cache "videos_channels" (.authors items),
        n, [("videos_channels", .authors items)])

/-- Content of the per-channel `profile.jpg` file: either the image produced
by `stream_file` on the chosen URL followed by `resize_image` to the given
canvas, or an arbitrary pre-existing file. -/
inductive ProfileFile
  | fromUrl (url : String) (width height : Nat)
  | preexisting (blob : String)
deriving DecidableEq, Repr

/-- The slice of the filesystem `save_channel_branding` touches: the set of
per-channel directories under `channels_dir` and the `profile.jpg` file of
each channel directory. -/
structure FS where
  dirs : List String
  profiles : List (String × ProfileFile)
deriving DecidableEq, Repr

/-- `channel_dir.mkdir(exist_ok=True)`. -/
def insertDir (dirs : List String) (d : String) : List String :=
  if d ∈ dirs then dirs else dirs ++ [d]

/-- `profile_path.exists()`: the file recorded for this channel, if any. -/
def lookupProfile (profiles : List (String × ProfileFile)) (channel_id : String) :
    Option ProfileFile :=
  profiles.lookup channel_id

/-- The thumbnail-selection loop
`for quality in ("medium", "default"): if quality in thumbnails: ... break`:
first quality key present wins, in that order. -/
def pickThumbnail (thumbnails : List (String × String)) : Option String :=
  match thumbnails.lookup "medium" with
  | some url => some url
  | none => thumbnails.lookup "default"

/-- Outcome of `save_channel_branding`: result, final cache, final
filesystem slice, HTTP requests issued, `stream_file` calls, `resize_image`
calls. -/
abbrev BrandingResult := Except Err Unit × Cache × FS × Nat × Nat × Nat

/-- `save_channel_branding(channels_dir, channel_id, save_banner=...)`:
fetch (or read cached) channel record; pick the thumbnail; create the
per-channel directory; when `profile.jpg` is absent, raise if no thumbnail
was found, else download the chosen URL and resize it to 100x100.  The
banner block is guarded by `save_banner and False` in the source and is
statically unreachable, so it has no effect to model. -/
def save_channel_branding (env : Env) (cache : Cache) (fs : FS)
    (channel_id : String) (save_banner : Bool) : BrandingResult :=
  match get_channel_json env cache channel_id false with
  | (.error e, c, n, _) => (.error e, c, fs, n, 0, 0)
  | (.ok v, c, n, _) =>
    match v with
    | .channel channel_json =>
      let thumbnail := pickThumbnail channel_json.thumbnails
      let fs1 : FS := { fs with dirs := insertDir fs.dirs channel_id }
      match lookupProfile fs1.profiles channel_id with
      | some _ =>
        let _ := save_banner
        (.ok (), c, fs1, n, 0, 0)
      | none =>
        -- `if not thumbnail: raise ...` — Python truthiness: both a missing
        -- thumbnail (None) and a present but empty-string URL are falsy and
        -- raise before any download.
        match thumbnail with
        | none => (.error .thumbnailNotFound, c, fs1, n, 0, 0)
        | some url =>
          if url = "" then (.error .thumbnailNotFound, c, fs1, n, 0, 0)
          else
            let fs2 : FS :=
              { fs1 with profiles := fs1.profiles ++ [(channel_id, .fromUrl url 100 100)] }
            (.ok (), c, fs2, n, 1, 1)
    | _ => (.error .typeError, c, fs, n, 0, 0)

/-- `skip_deleted_videos(item)`: keep the item when its title differs from
"Deleted video" AND its description differs from
"This video is unavailable.". -/
def skip_deleted_videos (item : VideoItem) : Bool :=
  if item.title = "Deleted video" then false
  else if item.description = "This video is unavailable." then false
  else true

/-- The spec's words for the deleted-video classifier (§4.6), to be compared
with the source's `skip_deleted_videos`: true when the title is exactly the
sentinel AND the description is exactly the sentinel unavailable-notice. -/
def isDeletedSpec (item : VideoItem) : Bool :=
  if item.title = "Deleted video" then
    if item.description = "This video is unavailable." then true else false
  else false

/-- Modelled from the spec: the `USER` tag of the missing constants module. -/
def USER : String := "user"

/-- Modelled from the spec: the `CHANNEL` tag of the missing constants
module. -/
def CHANNEL : String := "channel"

/-- Modelled from the spec: the `PLAYLIST` tag of the missing constants
module. -/
def PLAYLIST : String := "playlist"

/-- `youtube_id.split(",")` on the underlying characters: Python `str.split`
with an explicit separator keeps empty fields and always returns at least
one field. -/
def splitCommaChars : List Char → List (List Char)
  | [] => [[]]
  | c :: cs =>
    if c = ',' then [] :: splitCommaChars cs
    else
      match splitCommaChars cs with
      | [] => [[c]]
      | g :: gs => (c :: g) :: gs

/-- `youtube_id.split(",")`. -/
def splitComma (s : String) : List String :=
  (splitCommaChars s.data).map (fun cs => String.mk cs)

/-- The `Playlist` value: identity plus snippet fields plus the slug
derived from the title. -/
structure Playlist where
  playlist_id : String
  title : String
  description : String
  creator_id : String
  creator_name : String
  slug : String
deriving DecidableEq, Repr

/-- `Playlist.from_id(playlist_id)`: fetch (or read cached) the playlist
record and build the `Playlist` from its snippet, keyed by the given id. -/
def Playlist.from_id (env : Env) (cache : Cache) (playlist_id : String) :
    Except Err Playlist × Cache × Nat :=
  match get_playlist_json env cache playlist_id with
  | (.error e, c, n, _) => (.error e, c, n)
  | (.ok v, c, n, _) =>
    match v with
    | .playlist p =>
      (.ok ⟨playlist_id, p.title, p.description, p.channelId, p.channelTitle,
        get_slug p.title⟩, c, n)
    | _ => (.error .typeError, c, n)

/-- The final list comprehension of `extract_playlists_details_from`:
`[Playlist.from_id(pid) for pid in ...]`, threading the cache; the first
failing construction aborts the comprehension. -/
def buildPlaylists (env : Env) (cache : Cache) :
    List String → Except Err (List Playlist) × Cache × Nat
  | [] => (.ok [], cache, 0)
  | pid :: rest =>
    match Playlist.from_id env cache pid with
    | (.error e, c, n) => (.error e, c, n)
    | (.ok pl, c, n) =>
      match buildPlaylists env c rest with
      | (.error e, c2, n2) => (.error e, c2, n + n2)
      | (.ok pls, c2, n2) => (.ok (pl :: pls), c2, n + n2)

/-- `extract_playlists_details_from(collection_type, youtube_id)`: resolve
the identifier to `(playlists, main_channel_id, uploads_playlist_id)`.
`list(set(playlist_ids))` is modelled by `List.dedup` (Python's set order is
unspecified; only the underlying set matters downstream). -/
def extract_playlists_details_from (env : Env) (cache : Cache)
    (collection_type : String) (youtube_id : String) :
    Except Err (List Playlist × String × Option String) × Cache × Nat :=
  if collection_type = USER ∨ collection_type = CHANNEL then
    match
      (if collection_type = USER then get_channel_json env cache youtube_id true
       else get_channel_json env cache youtube_id false) with
    | (.error e, c, n, _) => (.error e, c, n)
    | (.ok v, c, n, _) =>
      match v with
      | .channel channel_json =>
        let main_channel_id := channel_json.id
        match get_channel_playlists_json env c main_channel_id with
        | (.error e, c2, n2, _) => (.error e, c2, n + n2)
        | (.ok v2, c2, n2, _) =>
          match v2 with
          | .playlistItems xs =>
            let playlist_ids :=
              xs.map (fun p => p.id) ++ [channel_json.uploads]
            let uploads_playlist_id := playlist_ids.getLast?
            match buildPlaylists env c2 playlist_ids.dedup with
            | (.error e, c3, n3) => (.error e, c3, n + n2 + n3)
            | (.ok pls, c3, n3) =>
              (.ok (pls, main_channel_id, uploads_playlist_id), c3, n + n2 + n3)
          | _ => (.error .typeError, c2, n + n2)
      | _ => (.error .typeError, c, n)
  else if collection_type = PLAYLIST then
    let playlist_ids := splitComma youtube_id
    match Playlist.from_id env cache (playlist_ids.headD "") with
    | (.error e, c, n) => (.error e, c, n)
    | (.ok pl0, c, n) =>
      let main_channel_id := pl0.creator_id
      match buildPlaylists env c playlist_ids.dedup with
      | (.error e, c2, n2) => (.error e, c2, n + n2)
      | (.ok pls, c2, n2) => (.ok (pls, main_channel_id, none), c2, n + n2)
  else
    (.error .unsupported, cache, 0)

/-! ## Helper lemmas -/

lemma save_json_self (c : Cache) (k : String) (v : CacheVal) :
    save_json c k v k = some v := by
  simp [save_json]

lemma save_json_overwrite (c : Cache) (k : String) (v1 v2 : CacheVal) :
    save_json (save_json c k v1) k v2 = save_json c k v2 := by
  funext k2
  simp only [save_json]
  split <;> rfl

lemma fetchPlaylistsPages_ok_cache (fname : String) :
    ∀ (responses : List (PageResp PlaylistListItem)) (cache : Cache)
      (acc : List PlaylistListItem) v c n ws,
      fetchPlaylistsPages fname cache acc responses = (.ok v, c, n, ws) →
      c fname = some v := by
  intro responses
  induction responses with
  | nil =>
    intro cache acc v c n ws h
    simp [fetchPlaylistsPages] at h
  | cons r rest ih =>
    intro cache acc v c n ws h
    cases r with
    | error e => simp [fetchPlaylistsPages] at h
    | ok page =>
      obtain ⟨pageItems, tok⟩ := page
      simp only [fetchPlaylistsPages] at h
      by_cases ht : tokenTruthy tok = true
      · rw [if_pos ht] at h
        cases hrec : fetchPlaylistsPages fname
            (save_json cache fname (.playlistItems (acc ++ pageItems)))
            (acc ++ pageItems) rest with
        | mk r' rest' =>
          rw [hrec] at h
          obtain ⟨c', n', ws'⟩ := rest'
          simp only [Prod.mk.injEq] at h
          obtain ⟨h1, h2, _, _⟩ := h
          subst h1 h2
          exact ih _ _ _ _ _ _ hrec
      · rw [if_neg ht] at h
        simp only [Prod.mk.injEq, Except.ok.injEq] at h
        obtain ⟨h1, h2, _, _⟩ := h
        subst h1 h2
        exact save_json_self _ _ _

lemma get_channel_json_hit (env : Env) (cache : Cache) (cid : String)
    (fu : Bool) (v : CacheVal) (h : cache ("channel_" ++ cid) = some v) :
    get_channel_json env cache cid fu = (.ok v, cache, 0, []) := by
  simp [get_channel_json, load_json, h]

lemma get_channel_json_caches (env : Env) (cache : Cache) (cid : String)
    (fu : Bool) (v : CacheVal) (c : Cache) (n : Nat)
    (ws : List (String × CacheVal))
    (h : get_channel_json env cache cid fu = (.ok v, c, n, ws)) :
    c ("channel_" ++ cid) = some v := by
  unfold get_channel_json at h
  simp only [load_json] at h
  split at h
  · rename_i w hw
    simp only [Prod.mk.injEq, Except.ok.injEq] at h
    obtain ⟨h1, h2, _, _⟩ := h
    subst h1 h2
    exact hw
  · split at h
    · simp at h
    · split at h
      · simp at h
      · simp only [Prod.mk.injEq, Except.ok.injEq] at h
        obtain ⟨h1, h2, _, _⟩ := h
        subst h1 h2
        exact save_json_self _ _ _

lemma get_channel_playlists_json_hit (env : Env) (cache : Cache)
    (cid : String) (v : CacheVal)
    (h : cache ("channel_" ++ cid ++ "_playlists") = some v) :
    get_channel_playlists_json env cache cid = (.ok v, cache, 0, []) := by
  simp [get_channel_playlists_json, load_json, h]

lemma get_channel_playlists_json_caches (env : Env) (cache : Cache)
    (cid : String) (v : CacheVal) (c : Cache) (n : Nat)
    (ws : List (String × CacheVal))
    (h : get_channel_playlists_json env cache cid = (.ok v, c, n, ws)) :
    c ("channel_" ++ cid ++ "_playlists") = some v := by
  unfold get_channel_playlists_json at h
  simp only [load_json] at h
  split at h
  · rename_i w hw
    simp only [Prod.mk.injEq, Except.ok.injEq] at h
    obtain ⟨h1, h2, _, _⟩ := h
    subst h1 h2
    exact hw
  · exact fetchPlaylistsPages_ok_cache _ _ _ _ _ _ _ _ h

lemma get_playlist_json_hit (env : Env) (cache : Cache) (pid : String)
    (v : CacheVal) (h : cache ("playlist_" ++ pid) = some v) :
    get_playlist_json env cache pid = (.ok v, cache, 0, []) := by
  simp [get_playlist_json, load_json, h]

lemma get_playlist_json_caches (env : Env) (cache : Cache) (pid : String)
    (v : CacheVal) (c : Cache) (n : Nat) (ws : List (String × CacheVal))
    (h : get_playlist_json env cache pid = (.ok v, c, n, ws)) :
    c ("playlist_" ++ pid) = some v := by
  unfold get_playlist_json at h
  simp only [load_json] at h
  split at h
  · rename_i w hw
    simp only [Prod.mk.injEq, Except.ok.injEq] at h
    obtain ⟨h1, h2, _, _⟩ := h
    subst h1 h2
    exact hw
  · split at h
    · simp at h
    · split at h
      · simp at h
      · simp only [Prod.mk.injEq, Except.ok.injEq] at h
        obtain ⟨h1, h2, _, _⟩ := h
        subst h1 h2
        exact save_json_self _ _ _

lemma get_videos_json_hit (env : Env) (cache : Cache) (pid : String)
    (v : CacheVal) (h : cache ("playlist_" ++ pid ++ "_videos") = some v) :
    get_videos_json env cache pid = (.ok v, cache, 0, []) := by
  simp [get_videos_json, load_json, h]

lemma get_videos_json_caches (env : Env) (cache : Cache) (pid : String)
    (v : CacheVal) (c : Cache) (n : Nat) (ws : List (String × CacheVal))
    (h : get_videos_json env cache pid = (.ok v, c, n, ws)) :
    c ("playlist_" ++ pid ++ "_videos") = some v := by
  unfold get_videos_json at h
  simp only [load_json] at h
  split at h
  · rename_i w hw
    simp only [Prod.mk.injEq, Except.ok.injEq] at h
    obtain ⟨h1, h2, _, _⟩ := h
    subst h1 h2
    exact hw
  · split at h
    · simp at h
    · rename_i items m hfetch
      simp only [Prod.mk.injEq, Except.ok.injEq] at h
      obtain ⟨h1, h2, _, _⟩ := h
      subst h1 h2
      exact save_json_self _ _ _

/-! ## Claim C1 -/

/-- Claim C1: for every accessor (`get_channel_json`,
`get_channel_playlists_json`, `get_playlist_json`, `get_videos_json`) and
every identifier, if the cache already contains the entry for that
identifier's key, the call returns exactly the cached value, leaves the
cache unchanged and issues zero network requests; hence a second call with
the same identifier after a first successful call returns the identical
value with zero requests. -/
theorem C1_accessors_cache_coherent :
    (∀ env cache cid fu v, cache ("channel_" ++ cid) = some v →
      get_channel_json env cache cid fu = (.ok v, cache, 0, [])) ∧
    (∀ env cache cid fu v c n ws,
      get_channel_json env cache cid fu = (.ok v, c, n, ws) →
      get_channel_json env c cid fu = (.ok v, c, 0, [])) ∧
    (∀ env cache cid v, cache ("channel_" ++ cid ++ "_playlists") = some v →
      get_channel_playlists_json env cache cid = (.ok v, cache, 0, [])) ∧
    (∀ env cache cid v c n ws,
      get_channel_playlists_json env cache cid = (.ok v, c, n, ws) →
      get_channel_playlists_json env c cid = (.ok v, c, 0, [])) ∧
    (∀ env cache pid v, cache ("playlist_" ++ pid) = some v →
      get_playlist_json env cache pid = (.ok v, cache, 0, [])) ∧
    (∀ env cache pid v c n ws,
      get_playlist_json env cache pid = (.ok v, c, n, ws) →
      get_playlist_json env c pid = (.ok v, c, 0, [])) ∧
    (∀ env cache pid v, cache ("playlist_" ++ pid ++ "_videos") = some v →
      get_videos_json env cache pid = (.ok v, cache, 0, [])) ∧
    (∀ env cache pid v c n ws,
      get_videos_json env cache pid = (.ok v, c, n, ws) →
      get_videos_json env c pid = (.ok v, c, 0, [])) := by
  refine ⟨?_, ?_, ?_, ?_, ?_, ?_, ?_, ?_⟩
  · exact fun env cache cid fu v h => get_channel_json_hit env cache cid fu v h
  · exact fun env cache cid fu v c n ws h =>
      get_channel_json_hit env c cid fu v (get_channel_json_caches env cache cid fu v c n ws h)
  · exact fun env cache cid v h => get_channel_playlists_json_hit env cache cid v h
  · exact fun env cache cid v c n ws h =>
      get_channel_playlists_json_hit env c cid v
        (get_channel_playlists_json_caches env cache cid v c n ws h)
  · exact fun env cache pid v h => get_playlist_json_hit env cache pid v h
  · exact fun env cache pid v c n ws h =>
      get_playlist_json_hit env c pid v (get_playlist_json_caches env cache pid v c n ws h)
  · exact fun env cache pid v h => get_videos_json_hit env cache pid v h
  · exact fun env cache pid v c n ws h =>
      get_videos_json_hit env c pid v (get_videos_json_caches env cache pid v c n ws h)

/-- A remote that answers nothing: any network attempt fails. -/
def envW1 : Env :=
  { channels := fun _ _ => .error .httpError
    playlistsList := fun _ => []
    playlistLookup := fun _ => .error .httpError
    playlistItemsList := fun _ => []
    videosLookup := fun _ => [] }

/-- A fully populated cache: every key holds the same channel blob.  The
accessors return a cache hit verbatim without inspecting its shape. -/
def cacheW1 : Cache := fun _ => some (.channel ⟨"c1", [], "UP"⟩)

theorem C1_witness :
    get_channel_json envW1 cacheW1 "c1" false
      = (.ok (.channel ⟨"c1", [], "UP"⟩), cacheW1, 0, []) ∧
    get_channel_playlists_json envW1 cacheW1 "c1"
      = (.ok (.channel ⟨"c1", [], "UP"⟩), cacheW1, 0, []) ∧
    get_playlist_json envW1 cacheW1 "p1"
      = (.ok (.channel ⟨"c1", [], "UP"⟩), cacheW1, 0, []) ∧
    get_videos_json envW1 cacheW1 "p1"
      = (.ok (.channel ⟨"c1", [], "UP"⟩), cacheW1, 0, []) ∧
    get_videos_json envW1 cacheW1 "p1"
      = (.ok (.channel ⟨"c1", [], "UP"⟩), cacheW1, 0, []) :=
  ⟨C1_accessors_cache_coherent.1 envW1 cacheW1 "c1" false _ rfl,
   C1_accessors_cache_coherent.2.2.1 envW1 cacheW1 "c1" _ rfl,
   C1_accessors_cache_coherent.2.2.2.2.1 envW1 cacheW1 "p1" _ rfl,
   C1_accessors_cache_coherent.2.2.2.2.2.2.1 envW1 cacheW1 "p1" _ rfl,
   C1_accessors_cache_coherent.2.2.2.2.2.2.2 envW1 cacheW1 "p1" _ cacheW1 0 []
     (C1_accessors_cache_coherent.2.2.2.2.2.2.1 envW1 cacheW1 "p1" _ rfl)⟩

/-! ## Claim C3 -/

/-- Claim C3 counterexample: an item whose title is the sentinel
"Deleted video" but whose description is an ordinary text IS classified as
deleted by the source's `skip_deleted_videos` (the filter drops it), while
the claim's both-sentinels-required classifier says it is not deleted. -/
theorem C3_counterexample :
    skip_deleted_videos ⟨"Deleted video", "an ordinary description", "2020-01-01"⟩ = false ∧
    isDeletedSpec ⟨"Deleted video", "an ordinary description", "2020-01-01"⟩ = false := by
  constructor <;> rfl

/-- Claim C3 (amended): the source's deleted-video classifier drops an item
exactly when its title is the sentinel "Deleted video" OR its description is
the sentinel "This video is unavailable." — matching either sentinel alone
already classifies the item as deleted. -/
theorem C3_deleted_classifier_is_disjunction (item : VideoItem) :
    skip_deleted_videos item = false ↔
      (item.title = "Deleted video" ∨
       item.description = "This video is unavailable.") := by
  unfold skip_deleted_videos
  by_cases h1 : item.title = "Deleted video" <;>
    by_cases h2 : item.description = "This video is unavailable." <;>
      simp [h1, h2]

/-! ## Pagination run lemmas (claims C2 and C4) -/

/-- A scripted run of successful pages, each carrying the given continuation
token. -/
def goodPages {α : Type} (front : List (List α × String)) : List (PageResp α) :=
  front.map (fun pt => Except.ok (pt.1, some pt.2))

/-- The successive accumulated item lists a per-page-persisting loop saves:
`prefixJoins acc [p1, p2, ...] = [acc ++ p1, acc ++ p1 ++ p2, ...]`. -/
def prefixJoins {α : Type} (acc : List α) : List (List α) → List (List α)
  | [] => []
  | p :: ps => (acc ++ p) :: prefixJoins (acc ++ p) ps

lemma fetchVideoPages_run (front : List (List VideoItem × String))
    (hfr : ∀ x ∈ front, x.2 ≠ "") (tail : List (PageResp VideoItem)) :
    ∀ acc, fetchVideoPages acc (goodPages front ++ tail) =
      ((fetchVideoPages (acc ++ (front.map Prod.fst).flatten) tail).1,
       (fetchVideoPages (acc ++ (front.map Prod.fst).flatten) tail).2 + front.length) := by
  induction front with
  | nil => intro acc; simp [goodPages]
  | cons pt front' ih =>
    intro acc
    obtain ⟨p, t⟩ := pt
    have ht : tokenTruthy (some t) = true := by
      have : t ≠ "" := hfr (p, t) (List.mem_cons_self _ _)
      simp [tokenTruthy, this]
    have ih' := ih (fun x hx => hfr x (List.mem_cons_of_mem _ hx))
    simp only [goodPages, List.map_cons, List.cons_append, fetchVideoPages, ht, if_true,
      List.append_eq]
    rw [show (List.map (fun pt => Except.ok (pt.1, some pt.2)) front' : List (PageResp VideoItem))
        = goodPages front' from rfl]
    rw [ih' (acc ++ p)]
    simp [List.append_assoc, Nat.add_assoc, Nat.add_comm 1 front'.length]

lemma fetchPlaylistsPages_run (fname : String)
    (front : List (List PlaylistListItem × String))
    (hfr : ∀ x ∈ front, x.2 ≠ "") (tail : List (PageResp PlaylistListItem)) :
    ∀ cache acc,
      fetchPlaylistsPages fname cache acc (goodPages front ++ tail) =
        (let inner := fetchPlaylistsPages fname
            ((prefixJoins acc (front.map Prod.fst)).foldl
              (fun c l => save_json c fname (.playlistItems l)) cache)
            (acc ++ (front.map Prod.fst).flatten) tail
         (inner.1, inner.2.1, inner.2.2.1 + front.length,
          (prefixJoins acc (front.map Prod.fst)).map
            (fun l => (fname, CacheVal.playlistItems l)) ++ inner.2.2.2)) := by
  induction front with
  | nil => intro cache acc; simp [goodPages, prefixJoins]
  | cons pt front' ih =>
    intro cache acc
    obtain ⟨p, t⟩ := pt
    have ht : tokenTruthy (some t) = true := by
      have : t ≠ "" := hfr (p, t) (List.mem_cons_self _ _)
      simp [tokenTruthy, this]
    have ih' := ih (fun x hx => hfr x (List.mem_cons_of_mem _ hx))
    simp only [goodPages, List.map_cons, List.cons_append, fetchPlaylistsPages, ht, if_true,
      List.append_eq]
    rw [show (List.map (fun pt => Except.ok (pt.1, some pt.2)) front'
        : List (PageResp PlaylistListItem)) = goodPages front' from rfl]
    rw [ih' (save_json cache fname (.playlistItems (acc ++ p))) (acc ++ p)]
    simp [prefixJoins, List.append_assoc, Nat.add_assoc, Nat.add_comm 1 front'.length]

lemma prefixJoins_append {α : Type} (ps : List (List α)) :
    ∀ (acc : List α) (q : List α),
      prefixJoins acc (ps ++ [q]) = prefixJoins acc ps ++ [acc ++ ps.flatten ++ q] := by
  induction ps with
  | nil => intro acc q; simp [prefixJoins]
  | cons p ps' ih =>
    intro acc q
    simp only [List.cons_append, prefixJoins, List.flatten_cons, List.append_eq]
    rw [ih (acc ++ p) q]
    simp [List.append_assoc]

lemma foldSave_prefixJoins_at (fname : String) :
    ∀ (ps : List (List PlaylistListItem)) (acc : List PlaylistListItem) (cache : Cache),
      ps ≠ [] →
      ((prefixJoins acc ps).foldl (fun c l => save_json c fname (.playlistItems l)) cache) fname
        = some (.playlistItems (acc ++ ps.flatten)) := by
  intro ps
  induction ps with
  | nil => intro acc cache h; cases h rfl
  | cons p ps' ih =>
    intro acc cache _
    cases ps' with
    | nil => simp [prefixJoins, save_json_self]
    | cons q ps'' =>
      rw [show prefixJoins acc (p :: q :: ps'')
          = (acc ++ p) :: prefixJoins (acc ++ p) (q :: ps'') from rfl]
      rw [List.foldl_cons]
      rw [ih (acc ++ p) _ (by simp)]
      simp [List.append_assoc]

lemma get_channel_playlists_run_ok (env : Env) (cache : Cache) (cid : String)
    (front : List (List PlaylistListItem × String)) (last : List PlaylistListItem)
    (hfr : ∀ x ∈ front, x.2 ≠ "")
    (hmiss : cache ("channel_" ++ cid ++ "_playlists") = none)
    (hscript : env.playlistsList cid = goodPages front ++ [Except.ok (last, none)]) :
    get_channel_playlists_json env cache cid =
      (.ok (.playlistItems ((front.map Prod.fst).flatten ++ last)),
       save_json
         ((prefixJoins [] (front.map Prod.fst)).foldl
           (fun c l => save_json c ("channel_" ++ cid ++ "_playlists") (.playlistItems l)) cache)
         ("channel_" ++ cid ++ "_playlists")
         (.playlistItems ((front.map Prod.fst).flatten ++ last)),
       1 + front.length,
       (prefixJoins [] (front.map Prod.fst ++ [last])).map
         (fun l => ("channel_" ++ cid ++ "_playlists", CacheVal.playlistItems l))) := by
  simp only [get_channel_playlists_json, load_json, hmiss, hscript]
  rw [fetchPlaylistsPages_run _ front hfr _ cache []]
  simp [fetchPlaylistsPages, tokenTruthy, prefixJoins_append]

lemma get_channel_playlists_run_err (env : Env) (cache : Cache) (cid : String)
    (front : List (List PlaylistListItem × String)) (e : Err)
    (hfr : ∀ x ∈ front, x.2 ≠ "")
    (hmiss : cache ("channel_" ++ cid ++ "_playlists") = none)
    (hscript : env.playlistsList cid = goodPages front ++ [Except.error e]) :
    get_channel_playlists_json env cache cid =
      (.error e,
       (prefixJoins [] (front.map Prod.fst)).foldl
         (fun c l => save_json c ("channel_" ++ cid ++ "_playlists") (.playlistItems l)) cache,
       1 + front.length,
       (prefixJoins [] (front.map Prod.fst)).map
         (fun l => ("channel_" ++ cid ++ "_playlists", CacheVal.playlistItems l))) := by
  simp only [get_channel_playlists_json, load_json, hmiss, hscript]
  rw [fetchPlaylistsPages_run _ front hfr _ cache []]
  simp [fetchPlaylistsPages]

lemma get_videos_run_ok (env : Env) (cache : Cache) (pid : String)
    (front : List (List VideoItem × String)) (last : List VideoItem)
    (hfr : ∀ x ∈ front, x.2 ≠ "")
    (hmiss : cache ("playlist_" ++ pid ++ "_videos") = none)
    (hscript : env.playlistItemsList pid = goodPages front ++ [Except.ok (last, none)]) :
    get_videos_json env cache pid =
      (.ok (.videos ((front.map Prod.fst).flatten ++ last)),
       save_json cache ("playlist_" ++ pid ++ "_videos")
         (.videos ((front.map Prod.fst).flatten ++ last)),
       1 + front.length,
       [("playlist_" ++ pid ++ "_videos",
         CacheVal.videos ((front.map Prod.fst).flatten ++ last))]) := by
  simp only [get_videos_json, load_json, hmiss, hscript]
  rw [fetchVideoPages_run front hfr _ []]
  simp [fetchVideoPages, tokenTruthy]

lemma get_videos_run_err (env : Env) (cache : Cache) (pid : String)
    (front : List (List VideoItem × String)) (e : Err)
    (hfr : ∀ x ∈ front, x.2 ≠ "")
    (hmiss : cache ("playlist_" ++ pid ++ "_videos") = none)
    (hscript : env.playlistItemsList pid = goodPages front ++ [Except.error e]) :
    get_videos_json env cache pid = (.error e, cache, 1 + front.length, []) := by
  simp only [get_videos_json, load_json, hmiss, hscript]
  rw [fetchVideoPages_run front hfr _ []]
  simp [fetchVideoPages]

/-! ## Claim C2 -/

/-- Claim C2: on a cache miss over a paginated run,
`get_channel_playlists_json` persists the accumulated item list to its cache
key after every fetched page (its write log is exactly one write per page,
each holding the pages so far), while `get_videos_json` persists exactly
once, after the final page.  Consequently, when a page request fails
mid-pagination, `get_videos_json` leaves the cache unchanged (the entry
stays absent) and writes nothing, whereas `get_channel_playlists_json`
leaves the pages fetched so far persisted under its key. -/
theorem C2_persistence_disciplines :
    (∀ env cache cid front last,
      (∀ x ∈ front, x.2 ≠ "") →
      cache ("channel_" ++ cid ++ "_playlists") = none →
      env.playlistsList cid = goodPages front ++ [Except.ok (last, none)] →
      (get_channel_playlists_json env cache cid).1 =
        .ok (.playlistItems ((front.map Prod.fst).flatten ++ last)) ∧
      (get_channel_playlists_json env cache cid).2.2.2 =
        (prefixJoins [] (front.map Prod.fst ++ [last])).map
          (fun l => ("channel_" ++ cid ++ "_playlists", CacheVal.playlistItems l))) ∧
    (∀ env cache pid front last,
      (∀ x ∈ front, x.2 ≠ "") →
      cache ("playlist_" ++ pid ++ "_videos") = none →
      env.playlistItemsList pid = goodPages front ++ [Except.ok (last, none)] →
      (get_videos_json env cache pid).1 =
        .ok (.videos ((front.map Prod.fst).flatten ++ last)) ∧
      (get_videos_json env cache pid).2.2.2 =
        [("playlist_" ++ pid ++ "_videos",
          CacheVal.videos ((front.map Prod.fst).flatten ++ last))]) ∧
    (∀ env cache pid front e,
      (∀ x ∈ front, x.2 ≠ "") →
      cache ("playlist_" ++ pid ++ "_videos") = none →
      env.playlistItemsList pid = goodPages front ++ [Except.error e] →
      (get_videos_json env cache pid).1 = .error e ∧
      (get_videos_json env cache pid).2.1 = cache ∧
      (get_videos_json env cache pid).2.2.2 = []) ∧
    (∀ env cache cid front e,
      (∀ x ∈ front, x.2 ≠ "") →
      cache ("channel_" ++ cid ++ "_playlists") = none →
      env.playlistsList cid = goodPages front ++ [Except.error e] →
      (get_channel_playlists_json env cache cid).1 = .error e ∧
      (get_channel_playlists_json env cache cid).2.2.2 =
        (prefixJoins [] (front.map Prod.fst)).map
          (fun l => ("channel_" ++ cid ++ "_playlists", CacheVal.playlistItems l)) ∧
      (front ≠ [] →
        (get_channel_playlists_json env cache cid).2.1 ("channel_" ++ cid ++ "_playlists") =
          some (.playlistItems (front.map Prod.fst).flatten))) := by
  refine ⟨?_, ?_, ?_, ?_⟩
  · intro env cache cid front last hfr hmiss hscript
    rw [get_channel_playlists_run_ok env cache cid front last hfr hmiss hscript]
    exact ⟨rfl, rfl⟩
  · intro env cache pid front last hfr hmiss hscript
    rw [get_videos_run_ok env cache pid front last hfr hmiss hscript]
    exact ⟨rfl, rfl⟩
  · intro env cache pid front e hfr hmiss hscript
    rw [get_videos_run_err env cache pid front e hfr hmiss hscript]
    exact ⟨rfl, rfl, rfl⟩
  · intro env cache cid front e hfr hmiss hscript
    rw [get_channel_playlists_run_err env cache cid front e hfr hmiss hscript]
    refine ⟨rfl, rfl, ?_⟩
    intro hne
    have hps : front.map Prod.fst ≠ [] := by
      cases front with
      | nil => cases hne rfl
      | cons x xs => simp
    have := foldSave_prefixJoins_at ("channel_" ++ cid ++ "_playlists")
      (front.map Prod.fst) [] cache hps
    simpa using this

/-- The empty cache. -/
def cacheNone : Cache := fun _ => none

/-- A scripted remote for the C2 witness: the "ok" identifiers paginate over
two successful pages; the "fail" identifiers fail on the second page. -/
def envW2 : Env :=
  { channels := fun _ _ => .error .httpError
    playlistsList := fun cid =>
      if cid = "ok" then
        [Except.ok ([⟨"P1"⟩], some "T"), Except.ok ([⟨"P2"⟩], none)]
      else
        [Except.ok ([⟨"P1"⟩], some "T"), Except.error .httpError]
    playlistLookup := fun _ => .error .httpError
    playlistItemsList := fun pid =>
      if pid = "ok" then
        [Except.ok ([⟨"t1", "d1", "2020-01-01"⟩], some "T"),
         Except.ok ([⟨"t2", "d2", "2020-01-02"⟩], none)]
      else
        [Except.ok ([⟨"t1", "d1", "2020-01-01"⟩], some "T"), Except.error .httpError]
    videosLookup := fun _ => [] }

theorem C2_witness :
    (get_channel_playlists_json envW2 cacheNone "ok").2.2.2 =
      [("channel_ok_playlists", CacheVal.playlistItems [⟨"P1"⟩]),
       ("channel_ok_playlists", CacheVal.playlistItems [⟨"P1"⟩, ⟨"P2"⟩])] ∧
    (get_videos_json envW2 cacheNone "ok").2.2.2 =
      [("playlist_ok_videos",
        CacheVal.videos [⟨"t1", "d1", "2020-01-01"⟩, ⟨"t2", "d2", "2020-01-02"⟩])] ∧
    (get_videos_json envW2 cacheNone "fail").1 = Except.error Err.httpError ∧
    (get_videos_json envW2 cacheNone "fail").2.1 = cacheNone ∧
    (get_channel_playlists_json envW2 cacheNone "fail").2.1 "channel_fail_playlists" =
      some (CacheVal.playlistItems [⟨"P1"⟩]) :=
  ⟨(C2_persistence_disciplines.1 envW2 cacheNone "ok" [([⟨"P1"⟩], "T")] [⟨"P2"⟩]
      (by decide) rfl rfl).2,
   (C2_persistence_disciplines.2.1 envW2 cacheNone "ok"
      [([⟨"t1", "d1", "2020-01-01"⟩], "T")] [⟨"t2", "d2", "2020-01-02"⟩]
      (by decide) rfl rfl).2,
   (C2_persistence_disciplines.2.2.1 envW2 cacheNone "fail"
      [([⟨"t1", "d1", "2020-01-01"⟩], "T")] Err.httpError (by decide) rfl rfl).1,
   (C2_persistence_disciplines.2.2.1 envW2 cacheNone "fail"
      [([⟨"t1", "d1", "2020-01-01"⟩], "T")] Err.httpError (by decide) rfl rfl).2.1,
   (C2_persistence_disciplines.2.2.2 envW2 cacheNone "fail"
      [([⟨"P1"⟩], "T")] Err.httpError (by decide) rfl rfl).2.2 (by decide)⟩

/-! ## Claim C4 -/

/-- Claim C4: for a simulated listing endpoint returning `front.length + 1`
pages, the first `front.length` of which carry a (truthy) continuation
cursor and the last of which carries none, the paginated fetch in
`get_videos_json` (on a cache miss) terminates after exactly one request per
page and returns the concatenation of all pages' item arrays, in page order
with within-page order preserved. -/
theorem C4_pagination_concatenates (env : Env) (cache : Cache) (pid : String)
    (front : List (List VideoItem × String)) (last : List VideoItem)
    (hfr : ∀ x ∈ front, x.2 ≠ "")
    (hmiss : cache ("playlist_" ++ pid ++ "_videos") = none)
    (hscript : env.playlistItemsList pid = goodPages front ++ [Except.ok (last, none)]) :
    get_videos_json env cache pid =
      (.ok (.videos ((front.map Prod.fst).flatten ++ last)),
       save_json cache ("playlist_" ++ pid ++ "_videos")
         (.videos ((front.map Prod.fst).flatten ++ last)),
       1 + front.length,
       [("playlist_" ++ pid ++ "_videos",
         CacheVal.videos ((front.map Prod.fst).flatten ++ last))]) :=
  get_videos_run_ok env cache pid front last hfr hmiss hscript

/-- A scripted remote for the C4 witness: three pages for playlist "p4". -/
def envW4 : Env :=
  { channels := fun _ _ => .error .httpError
    playlistsList := fun _ => []
    playlistLookup := fun _ => .error .httpError
    playlistItemsList := fun pid =>
      if pid = "p4" then
        [Except.ok ([⟨"a", "da", "2020-01-01"⟩, ⟨"b", "db", "2020-01-02"⟩], some "T1"),
         Except.ok ([⟨"c", "dc", "2020-01-03"⟩], some "T2"),
         Except.ok ([⟨"d", "dd", "2020-01-04"⟩], none)]
      else []
    videosLookup := fun _ => [] }

theorem C4_witness :
    get_videos_json envW4 cacheNone "p4" =
      (.ok (.videos [⟨"a", "da", "2020-01-01"⟩, ⟨"b", "db", "2020-01-02"⟩,
        ⟨"c", "dc", "2020-01-03"⟩, ⟨"d", "dd", "2020-01-04"⟩]),
       save_json cacheNone "playlist_p4_videos"
         (.videos [⟨"a", "da", "2020-01-01"⟩, ⟨"b", "db", "2020-01-02"⟩,
           ⟨"c", "dc", "2020-01-03"⟩, ⟨"d", "dd", "2020-01-04"⟩]),
       3,
       [("playlist_p4_videos",
         CacheVal.videos [⟨"a", "da", "2020-01-01"⟩, ⟨"b", "db", "2020-01-02"⟩,
           ⟨"c", "dc", "2020-01-03"⟩, ⟨"d", "dd", "2020-01-04"⟩])]) :=
  C4_pagination_concatenates envW4 cacheNone "p4"
    [([⟨"a", "da", "2020-01-01"⟩, ⟨"b", "db", "2020-01-02"⟩], "T1"),
     ([⟨"c", "dc", "2020-01-03"⟩], "T2")]
    [⟨"d", "dd", "2020-01-04"⟩] (by decide) rfl rfl

/-! ## Chunking and author-resolver lemmas (claims C5 and C6) -/

lemma chunksOfAux_fuel (n : Nat) (hn : n ≠ 0) :
    ∀ (k : Nat) (xs : List String), xs.length ≤ k →
      chunksOfAux n k xs = chunksOf n xs := by
  intro k
  induction k using Nat.strong_induction_on with
  | _ k ih =>
    intro xs hk
    cases xs with
    | nil =>
      cases k with
      | zero => rfl
      | succ k' => rfl
    | cons x xs' =>
      cases k with
      | zero => simp at hk
      | succ k' =>
        have hk' : xs'.length ≤ k' := by simpa using hk
        have hdlen : ((x :: xs').drop n).length ≤ xs'.length := by
          simp only [List.length_drop, List.length_cons]
          omega
        show (x :: xs').take n :: chunksOfAux n k' ((x :: xs').drop n)
            = chunksOf n (x :: xs')
        rw [show chunksOf n (x :: xs')
            = (x :: xs').take n :: chunksOfAux n xs'.length ((x :: xs').drop n) from rfl]
        rw [ih k' (by omega) _ (le_trans hdlen hk'),
          ih xs'.length (by omega) _ hdlen]

lemma chunksOf_cons_eq (n : Nat) (hn : n ≠ 0) (xs : List String) (h : xs ≠ []) :
    chunksOf n xs = xs.take n :: chunksOf n (xs.drop n) := by
  cases xs with
  | nil => cases h rfl
  | cons x xs' =>
    show (x :: xs').take n :: chunksOfAux n xs'.length ((x :: xs').drop n)
        = (x :: xs').take n :: chunksOf n ((x :: xs').drop n)
    rw [chunksOfAux_fuel n hn xs'.length _ (by simp [List.length_drop]; omega)]

lemma chunksOf_flatten (n : Nat) (hn : n ≠ 0) :
    ∀ (k : Nat) (xs : List String), xs.length = k → (chunksOf n xs).flatten = xs := by
  intro k
  induction k using Nat.strong_induction_on with
  | _ k ih =>
    intro xs hlen
    cases hxs : xs with
    | nil => simp [chunksOf, chunksOfAux]
    | cons x xs' =>
      subst hxs
      rw [chunksOf_cons_eq n hn _ (by simp)]
      rw [List.flatten_cons]
      have hlt : ((x :: xs').drop n).length < k := by
        subst hlen
        simp only [List.length_drop, List.length_cons]
        omega
      rw [ih _ hlt _ rfl]
      exact List.take_append_drop n (x :: xs')

lemma chunksOf_length_le (n : Nat) (hn : n ≠ 0) :
    ∀ (k : Nat) (xs : List String), xs.length = k →
      ∀ c ∈ chunksOf n xs, c.length ≤ n := by
  intro k
  induction k using Nat.strong_induction_on with
  | _ k ih =>
    intro xs hlen c hc
    cases hxs : xs with
    | nil =>
      subst hxs
      simp [chunksOf, chunksOfAux] at hc
    | cons x xs' =>
      subst hxs
      rw [chunksOf_cons_eq n hn _ (by simp)] at hc
      cases hc with
      | head => simp [List.length_take]
      | tail _ hmem =>
        have hlt : ((x :: xs').drop n).length < k := by
          subst hlen
          simp only [List.length_drop, List.length_cons]
          omega
        exact ih _ hlt _ rfl c hmem

lemma chunksOf_50_lengths_101 (xs : List String) (h : xs.length = 101) :
    (chunksOf 50 xs).map List.length = [50, 50, 1] := by
  have h1 : xs ≠ [] := by intro hh; rw [hh] at h; simp at h
  rw [chunksOf_cons_eq 50 (by decide) xs h1]
  have hd1 : (xs.drop 50).length = 51 := by simp [List.length_drop, h]
  have h2 : xs.drop 50 ≠ [] := by intro hh; rw [hh] at hd1; simp at hd1
  rw [chunksOf_cons_eq 50 (by decide) _ h2]
  have hd2 : ((xs.drop 50).drop 50).length = 1 := by
    simp only [List.length_drop]
    omega
  have h3 : (xs.drop 50).drop 50 ≠ [] := by intro hh; rw [hh] at hd2; simp at hd2
  rw [chunksOf_cons_eq 50 (by decide) _ h3]
  have hd3 : (((xs.drop 50).drop 50).drop 50).length = 0 := by
    simp only [List.length_drop]
    omega
  have h4 : ((xs.drop 50).drop 50).drop 50 = [] := by
    cases hx : ((xs.drop 50).drop 50).drop 50 with
    | nil => rfl
    | cons y ys => rw [hx] at hd3; simp at hd3
  rw [h4]
  simp [chunksOf, chunksOfAux, List.length_take, h, hd1, hd2]

lemma retrieve_videos_single_page (p : List VideoListItem) :
    retrieve_videos_for_pages [] [Except.ok (p, none)] =
      (.ok (p.foldl (fun d it => updAssoc d it.id ⟨it.channelId, it.channelTitle⟩) []),
       1) := by
  simp [retrieve_videos_for_pages, tokenTruthy]

lemma authorsChunksLoop_single_pages (env : Env)
    (pages : List String → List VideoListItem)
    (henv : ∀ ch, env.videosLookup ch = [Except.ok (pages ch, none)]) :
    ∀ (chunks : List (List String)) (acc : List (String × AuthorInfo)),
      ∃ m, authorsChunksLoop env acc chunks = (.ok m, chunks.length) := by
  intro chunks
  induction chunks with
  | nil => intro acc; exact ⟨acc, rfl⟩
  | cons ch rest ih =>
    intro acc
    obtain ⟨m, hm⟩ := ih (dictUpdate acc
      ((pages ch).foldl (fun d it => updAssoc d it.id ⟨it.channelId, it.channelTitle⟩) []))
    refine ⟨m, ?_⟩
    simp only [authorsChunksLoop, henv ch, retrieve_videos_single_page]
    rw [hm]
    simp [Nat.add_comm]

lemma get_videos_authors_info_hit (env : Env) (cache : Cache)
    (ids : List String) (v : CacheVal) (h : cache "videos_channels" = some v) :
    get_videos_authors_info env cache ids = (.ok v, cache, 0, []) := by
  simp [get_videos_authors_info, load_json, h]

lemma get_videos_authors_info_caches (env : Env) (cache : Cache)
    (ids : List String) (v : CacheVal) (c : Cache) (n : Nat)
    (ws : List (String × CacheVal))
    (h : get_videos_authors_info env cache ids = (.ok v, c, n, ws)) :
    c "videos_channels" = some v := by
  unfold get_videos_authors_info at h
  simp only [load_json] at h
  split at h
  · rename_i w hw
    simp only [Prod.mk.injEq, Except.ok.injEq] at h
    obtain ⟨h1, h2, _, _⟩ := h
    subst h1 h2
    exact hw
  · split at h
    · simp at h
    · simp only [Prod.mk.injEq, Except.ok.injEq] at h
      obtain ⟨h1, h2, _, _⟩ := h
      subst h1 h2
      exact save_json_self _ _ _

lemma get_videos_authors_info_requests (env : Env)
    (pages : List String → List VideoListItem) (cache : Cache) (ids : List String)
    (henv : ∀ ch, env.videosLookup ch = [Except.ok (pages ch, none)])
    (hmiss : cache "videos_channels" = none) :
    (get_videos_authors_info env cache ids).2.2.1 =
      (chunksOf MAX_VIDEOS_PER_REQUEST ids).length := by
  obtain ⟨m, hm⟩ := authorsChunksLoop_single_pages env pages henv
    (chunksOf MAX_VIDEOS_PER_REQUEST ids) []
  simp only [get_videos_authors_info, load_json, hmiss, hm]

/-! ## Claim C5 -/

/-- Claim C5: `get_videos_authors_info` partitions its input id sequence
into consecutive chunks of size at most `MAX_VIDEOS_PER_REQUEST = 50`
(the chunks concatenate back to the input), issues one bulk-lookup request
sequence per chunk (with one page per chunk the request count equals the
chunk count), and persists the merged mapping exactly once under the single
key "videos_channels"; in particular an input of 101 video ids is split
into exactly 3 chunks of sizes 50, 50, 1, issuing exactly 3 requests. -/
theorem C5_batch_partitioning :
    (∀ ids : List String, (chunksOf MAX_VIDEOS_PER_REQUEST ids).flatten = ids) ∧
    (∀ (ids : List String) c, c ∈ chunksOf MAX_VIDEOS_PER_REQUEST ids →
      c.length ≤ MAX_VIDEOS_PER_REQUEST) ∧
    (∀ env cache ids m c n ws, cache "videos_channels" = none →
      get_videos_authors_info env cache ids = (.ok (.authors m), c, n, ws) →
      ws = [("videos_channels", CacheVal.authors m)] ∧
      c = save_json cache "videos_channels" (.authors m)) ∧
    (∀ env (pages : List String → List VideoListItem) cache (ids : List String),
      (∀ ch, env.videosLookup ch = [Except.ok (pages ch, none)]) →
      cache "videos_channels" = none →
      (get_videos_authors_info env cache ids).2.2.1 =
        (chunksOf MAX_VIDEOS_PER_REQUEST ids).length) ∧
    (∀ ids : List String, ids.length = 101 →
      (chunksOf MAX_VIDEOS_PER_REQUEST ids).map List.length = [50, 50, 1]) ∧
    (∀ env (pages : List String → List VideoListItem) cache (ids : List String),
      (∀ ch, env.videosLookup ch = [Except.ok (pages ch, none)]) →
      cache "videos_channels" = none → ids.length = 101 →
      (get_videos_authors_info env cache ids).2.2.1 = 3) := by
  refine ⟨?_, ?_, ?_, ?_, ?_, ?_⟩
  · exact fun ids => chunksOf_flatten MAX_VIDEOS_PER_REQUEST (by decide) ids.length ids rfl
  · exact fun ids c hc =>
      chunksOf_length_le MAX_VIDEOS_PER_REQUEST (by decide) ids.length ids rfl c hc
  · intro env cache ids m c n ws hmiss h
    unfold get_videos_authors_info at h
    simp only [load_json, hmiss] at h
    split at h
    · simp at h
    · simp only [Prod.mk.injEq, Except.ok.injEq, CacheVal.authors.injEq] at h
      obtain ⟨h1, h2, _, h4⟩ := h
      subst h1 h2
      exact ⟨h4.symm, rfl⟩
  · exact fun env pages cache ids henv hmiss =>
      get_videos_authors_info_requests env pages cache ids henv hmiss
  · exact fun ids h => chunksOf_50_lengths_101 ids h
  · intro env pages cache ids henv hmiss hlen
    rw [get_videos_authors_info_requests env pages cache ids henv hmiss]
    have hmap : (chunksOf MAX_VIDEOS_PER_REQUEST ids).map List.length = [50, 50, 1] :=
      chunksOf_50_lengths_101 ids hlen
    have hlen3 : (chunksOf MAX_VIDEOS_PER_REQUEST ids).length =
        ((chunksOf MAX_VIDEOS_PER_REQUEST ids).map List.length).length :=
      (List.length_map _ _).symm
    rw [hlen3, hmap]
    rfl

/-- A scripted remote for the C5 witness: every bulk lookup answers with a
single page echoing the requested ids. -/
def envW5 : Env :=
  { channels := fun _ _ => .error .httpError
    playlistsList := fun _ => []
    playlistLookup := fun _ => .error .httpError
    playlistItemsList := fun _ => []
    videosLookup := fun ch =>
      [Except.ok (ch.map (fun i => ⟨i, "cX", "tX"⟩), none)] }

set_option maxRecDepth 4000 in
theorem C5_witness :
    (chunksOf MAX_VIDEOS_PER_REQUEST (List.replicate 101 "v")).flatten
      = List.replicate 101 "v" ∧
    (chunksOf MAX_VIDEOS_PER_REQUEST (List.replicate 101 "v")).map List.length
      = [50, 50, 1] ∧
    (get_videos_authors_info envW5 cacheNone (List.replicate 101 "v")).2.2.1 = 3 ∧
    (get_videos_authors_info envW5 cacheNone (List.replicate 101 "v")).2.2.2 =
      [("videos_channels", CacheVal.authors [("v", ⟨"cX", "tX"⟩)])] :=
  ⟨C5_batch_partitioning.1 (List.replicate 101 "v"),
   C5_batch_partitioning.2.2.2.2.1 (List.replicate 101 "v") (by decide),
   C5_batch_partitioning.2.2.2.2.2 envW5 (fun ch => ch.map (fun i => ⟨i, "cX", "tX"⟩))
     cacheNone (List.replicate 101 "v") (fun ch => rfl) rfl (by decide),
   (C5_batch_partitioning.2.2.1 envW5 cacheNone (List.replicate 101 "v")
     [("v", ⟨"cX", "tX"⟩)]
     (get_videos_authors_info envW5 cacheNone (List.replicate 101 "v")).2.1
     (get_videos_authors_info envW5 cacheNone (List.replicate 101 "v")).2.2.1
     (get_videos_authors_info envW5 cacheNone (List.replicate 101 "v")).2.2.2
     rfl (by rfl)).1⟩

/-! ## Claim C6 -/

/-- Claim C6: the author resolver uses the single cache key
"videos_channels", independent of the input id set: whenever that entry is
present, a call with any id sequence returns the cached mapping unchanged
and issues zero network requests; hence after one successful call, a second
call with a different id sequence returns the identical value with zero
requests. -/
theorem C6_authors_full_collection_cache :
    (∀ env cache ids v, cache "videos_channels" = some v →
      get_videos_authors_info env cache ids = (.ok v, cache, 0, [])) ∧
    (∀ env cache ids1 ids2 v c n ws,
      get_videos_authors_info env cache ids1 = (.ok v, c, n, ws) →
      get_videos_authors_info env c ids2 = (.ok v, c, 0, [])) := by
  constructor
  · exact fun env cache ids v h => get_videos_authors_info_hit env cache ids v h
  · exact fun env cache ids1 ids2 v c n ws h =>
      get_videos_authors_info_hit env c ids2 v
        (get_videos_authors_info_caches env cache ids1 v c n ws h)

/-- A cache already holding an author mapping under "videos_channels". -/
def cacheW6 : Cache :=
  fun k => if k = "videos_channels"
    then some (.authors [("v1", ⟨"c1", "t1"⟩)]) else none

theorem C6_witness :
    get_videos_authors_info envW5 cacheW6 ["a", "b"] =
      (.ok (.authors [("v1", ⟨"c1", "t1"⟩)]), cacheW6, 0, []) ∧
    get_videos_authors_info envW5 cacheW6 ["completely", "different", "ids"] =
      (.ok (.authors [("v1", ⟨"c1", "t1"⟩)]), cacheW6, 0, []) :=
  ⟨C6_authors_full_collection_cache.1 envW5 cacheW6 ["a", "b"] _ rfl,
   C6_authors_full_collection_cache.2 envW5 cacheW6 ["a", "b"]
     ["completely", "different", "ids"] _ cacheW6 0 []
     (C6_authors_full_collection_cache.1 envW5 cacheW6 ["a", "b"] _ rfl)⟩

/-! ## Resolver lemmas (claims C7 and C8) -/

lemma Playlist.from_id_key (env : Env) (cache : Cache) (pid : String)
    (pl : Playlist) (c : Cache) (n : Nat)
    (h : Playlist.from_id env cache pid = (.ok pl, c, n)) :
    pl.playlist_id = pid := by
  unfold Playlist.from_id at h
  split at h
  · simp at h
  · split at h
    · simp only [Prod.mk.injEq, Except.ok.injEq] at h
      obtain ⟨h1, _, _⟩ := h
      subst h1
      rfl
    · simp at h

lemma buildPlaylists_map (env : Env) :
    ∀ (ids : List String) (cache : Cache) pls c n,
      buildPlaylists env cache ids = (.ok pls, c, n) →
      pls.map (fun pl => pl.playlist_id) = ids := by
  intro ids
  induction ids with
  | nil =>
    intro cache pls c n h
    simp only [buildPlaylists, Prod.mk.injEq, Except.ok.injEq] at h
    obtain ⟨h1, _, _⟩ := h
    subst h1
    rfl
  | cons pid rest ih =>
    intro cache pls c n h
    simp only [buildPlaylists] at h
    split at h
    · simp at h
    · rename_i pl c1 n1 hfrom
      split at h
      · simp at h
      · rename_i pls' c2 n2 hbuild
        simp only [Prod.mk.injEq, Except.ok.injEq] at h
        obtain ⟨h1, _, _⟩ := h
        subst h1
        simp only [List.map_cons]
        rw [Playlist.from_id_key env cache pid pl c1 n1 hfrom, ih _ _ _ _ hbuild]

lemma toFinset_dedup_list (l : List String) : l.dedup.toFinset = l.toFinset := by
  ext x
  simp [List.mem_toFinset, List.mem_dedup]

/-! ## Claim C7 -/

/-- Claim C7: for every successful resolution of a User or Channel
collection, the uploads playlist id of the looked-up channel is reported as
the collection's uploads id and is a member of the returned playlists' id
set (every returned Playlist being keyed by its `playlist_id`), even when
the channel-playlists listing did not return that id. -/
theorem C7_uploads_id_in_playlist_set (env : Env) (cache : Cache)
    (ct yid : String) (cj : ChannelJson) (c1 : Cache) (n1 : Nat)
    (ws1 : List (String × CacheVal)) (pls : List Playlist) (mcid : String)
    (up : Option String) (c2 : Cache) (n : Nat)
    (hct : ct = USER ∨ ct = CHANNEL)
    (hch : (if ct = USER then get_channel_json env cache yid true
            else get_channel_json env cache yid false) = (.ok (.channel cj), c1, n1, ws1))
    (hres : extract_playlists_details_from env cache ct yid = (.ok (pls, mcid, up), c2, n)) :
    up = some cj.uploads ∧ cj.uploads ∈ pls.map (fun pl => pl.playlist_id) := by
  unfold extract_playlists_details_from at hres
  rw [if_pos hct, hch] at hres
  simp only at hres
  split at hres
  · simp at hres
  · rename_i v2 c3 n2 ws2 hpl
    split at hres
    case _ xs =>
      split at hres
      · simp at hres
      · rename_i pls' c4 n3 hbuild
        simp only [Prod.mk.injEq, Except.ok.injEq] at hres
        obtain ⟨⟨h1, _, h3⟩, _, _⟩ := hres
        subst h1 h3
        constructor
        · exact List.getLast?_concat _
        · rw [buildPlaylists_map env _ _ _ _ _ hbuild]
          exact List.mem_dedup.mpr (List.mem_append_right _ (List.mem_singleton_self _))
    all_goals simp at hres

/-- A scripted remote for the C7 witness: channel "chanA" owns one generic
playlist "PL1" and has uploads playlist "PUp", which the listing endpoint
does not return. -/
def envW7 : Env :=
  { channels := fun cid _ =>
      if cid = "chanA" then .ok [⟨"chanA", [], "PUp"⟩] else .error .notFound
    playlistsList := fun cid =>
      if cid = "chanA" then [Except.ok ([⟨"PL1"⟩], none)] else []
    playlistLookup := fun pid =>
      if pid = "PL1" then .ok [⟨"T1", "D1", "chanA", "NameA"⟩]
      else if pid = "PUp" then .ok [⟨"T2", "D2", "chanA", "NameA"⟩]
      else .error .notFound
    playlistItemsList := fun _ => []
    videosLookup := fun _ => [] }

theorem C7_witness :
    (some "PUp" : Option String) = some "PUp" ∧
    "PUp" ∈ ([⟨"PL1", "T1", "D1", "chanA", "NameA", "T1"⟩,
      ⟨"PUp", "T2", "D2", "chanA", "NameA", "T2"⟩] : List Playlist).map
        (fun pl => pl.playlist_id) :=
  C7_uploads_id_in_playlist_set envW7 cacheNone CHANNEL "chanA"
    ⟨"chanA", [], "PUp"⟩
    (get_channel_json envW7 cacheNone "chanA" false).2.1
    (get_channel_json envW7 cacheNone "chanA" false).2.2.1
    (get_channel_json envW7 cacheNone "chanA" false).2.2.2
    [⟨"PL1", "T1", "D1", "chanA", "NameA", "T1"⟩,
     ⟨"PUp", "T2", "D2", "chanA", "NameA", "T2"⟩]
    "chanA" (some "PUp")
    (extract_playlists_details_from envW7 cacheNone CHANNEL "chanA").2.1
    (extract_playlists_details_from envW7 cacheNone CHANNEL "chanA").2.2
    (Or.inr rfl) (by rfl) (by rfl)

/-! ## Claim C8 -/

/-- Claim C8: resolving a Playlist collection de-duplicates the
comma-separated playlist ids with set semantics before building each
Playlist: on success the returned playlists' id list is exactly the
de-duplicated input id list, hence pairwise distinct, and its id set equals
the set of input ids. -/
theorem C8_playlist_ids_deduplicated (env : Env) (cache : Cache)
    (yid : String) (pls : List Playlist) (mcid : String) (up : Option String)
    (c2 : Cache) (n : Nat)
    (hres : extract_playlists_details_from env cache PLAYLIST yid
      = (.ok (pls, mcid, up), c2, n)) :
    pls.map (fun pl => pl.playlist_id) = (splitComma yid).dedup ∧
    (pls.map (fun pl => pl.playlist_id)).Nodup ∧
    (pls.map (fun pl => pl.playlist_id)).toFinset = (splitComma yid).toFinset := by
  unfold extract_playlists_details_from at hres
  rw [if_neg (by decide), if_pos rfl] at hres
  simp only at hres
  split at hres
  · simp at hres
  · split at hres
    · simp at hres
    · rename_i pl0 c0 n0 hfrom pls' c3 n3 hbuild
      simp only [Prod.mk.injEq, Except.ok.injEq] at hres
      obtain ⟨⟨h1, _, _⟩, _, _⟩ := hres
      subst h1
      have hmap := buildPlaylists_map env _ _ _ _ _ hbuild
      refine ⟨hmap, ?_, ?_⟩
      · rw [hmap]
        exact List.nodup_dedup _
      · rw [hmap]
        exact toFinset_dedup_list _

/-- A scripted remote for the C8 witness: two resolvable playlists "A" and
"B". -/
def envW8 : Env :=
  { channels := fun _ _ => .error .httpError
    playlistsList := fun _ => []
    playlistLookup := fun pid =>
      if pid = "A" then .ok [⟨"TA", "DA", "chA", "NA"⟩]
      else if pid = "B" then .ok [⟨"TB", "DB", "chA", "NA"⟩]
      else .error .notFound
    playlistItemsList := fun _ => []
    videosLookup := fun _ => [] }

theorem C8_witness :
    ([⟨"B", "TB", "DB", "chA", "NA", "TB"⟩,
      ⟨"A", "TA", "DA", "chA", "NA", "TA"⟩] : List Playlist).map
        (fun pl => pl.playlist_id) = (splitComma "A,B,A").dedup ∧
    (([⟨"B", "TB", "DB", "chA", "NA", "TB"⟩,
      ⟨"A", "TA", "DA", "chA", "NA", "TA"⟩] : List Playlist).map
        (fun pl => pl.playlist_id)).Nodup ∧
    (([⟨"B", "TB", "DB", "chA", "NA", "TB"⟩,
      ⟨"A", "TA", "DA", "chA", "NA", "TA"⟩] : List Playlist).map
        (fun pl => pl.playlist_id)).toFinset = (splitComma "A,B,A").toFinset ∧
    ([⟨"B", "TB", "DB", "chA", "NA", "TB"⟩,
      ⟨"A", "TA", "DA", "chA", "NA", "TA"⟩] : List Playlist).length = 2 :=
  ⟨(C8_playlist_ids_deduplicated envW8 cacheNone "A,B,A"
      [⟨"B", "TB", "DB", "chA", "NA", "TB"⟩, ⟨"A", "TA", "DA", "chA", "NA", "TA"⟩]
      "chA" none
      (extract_playlists_details_from envW8 cacheNone PLAYLIST "A,B,A").2.1
      (extract_playlists_details_from envW8 cacheNone PLAYLIST "A,B,A").2.2
      (by rfl)).1,
   (C8_playlist_ids_deduplicated envW8 cacheNone "A,B,A"
      [⟨"B", "TB", "DB", "chA", "NA", "TB"⟩, ⟨"A", "TA", "DA", "chA", "NA", "TA"⟩]
      "chA" none
      (extract_playlists_details_from envW8 cacheNone PLAYLIST "A,B,A").2.1
      (extract_playlists_details_from envW8 cacheNone PLAYLIST "A,B,A").2.2
      (by rfl)).2.1,
   (C8_playlist_ids_deduplicated envW8 cacheNone "A,B,A"
      [⟨"B", "TB", "DB", "chA", "NA", "TB"⟩, ⟨"A", "TA", "DA", "chA", "NA", "TA"⟩]
      "chA" none
      (extract_playlists_details_from envW8 cacheNone PLAYLIST "A,B,A").2.1
      (extract_playlists_details_from envW8 cacheNone PLAYLIST "A,B,A").2.2
      (by rfl)).2.2,
   rfl⟩

/-! ## Claims C9 and C10 -/

/-- A scripted remote for claims C9 and C10: channel "cX" exposes no
thumbnails at all; channel "cY" exposes only a "medium" thumbnail; channel
"cZ" exposes a "medium" key whose URL is the empty string. -/
def envW9 : Env :=
  { channels := fun cid _ =>
      if cid = "cX" then .ok [⟨"cX", [], "UPX"⟩]
      else if cid = "cY" then .ok [⟨"cY", [("medium", "urlM")], "UPY"⟩]
      else if cid = "cZ" then .ok [⟨"cZ", [("medium", "")], "UPZ"⟩]
      else .error .notFound
    playlistsList := fun _ => []
    playlistLookup := fun _ => .error .httpError
    playlistItemsList := fun _ => []
    videosLookup := fun _ => [] }

/-- A filesystem slice on which channel "cX" already has a profile image. -/
def fsW9 : FS := ⟨[], [("cX", .preexisting "old-bytes")]⟩

/-- Claim C9 counterexample: channel "cX" exposes neither a "medium" nor a
"default" thumbnail, yet `save_channel_branding` succeeds (no AssetNotFound)
because the profile file already exists on disk; so the claim's
unconditional "fails with AssetNotFound" is false. -/
theorem C9_counterexample :
    (⟨"cX", [], "UPX"⟩ : ChannelJson).thumbnails.lookup "medium" = none ∧
    (⟨"cX", [], "UPX"⟩ : ChannelJson).thumbnails.lookup "default" = none ∧
    (save_channel_branding envW9 cacheNone fsW9 "cX" false).1 = Except.ok () :=
  ⟨rfl, rfl, rfl⟩

/-- Claim C9 (amended): `save_channel_branding` selects the thumbnail by
descending quality preference — the "medium" URL when that key is present,
otherwise the "default" URL — and downloads the selected URL when it is
non-empty; for every channel whose profile image file does not already
exist and whose selected thumbnail is falsy — either absent (in particular
when the thumbnail set contains neither "medium" nor "default") or a
present but empty-string URL — the operation fails with the
thumbnail-not-found error. -/
theorem C9_thumbnail_preference_and_failure :
    (∀ (ts : List (String × String)) u, ts.lookup "medium" = some u →
      pickThumbnail ts = some u) ∧
    (∀ ts : List (String × String), ts.lookup "medium" = none →
      pickThumbnail ts = ts.lookup "default") ∧
    (∀ env cache fs cid b cj c1 n1 ws1,
      get_channel_json env cache cid false = (.ok (.channel cj), c1, n1, ws1) →
      lookupProfile fs.profiles cid = none →
      pickThumbnail cj.thumbnails = none →
      save_channel_branding env cache fs cid b =
        (.error .thumbnailNotFound, c1,
         { fs with dirs := insertDir fs.dirs cid }, n1, 0, 0)) ∧
    (∀ env cache fs cid b cj c1 n1 ws1,
      get_channel_json env cache cid false = (.ok (.channel cj), c1, n1, ws1) →
      lookupProfile fs.profiles cid = none →
      pickThumbnail cj.thumbnails = some "" →
      save_channel_branding env cache fs cid b =
        (.error .thumbnailNotFound, c1,
         { fs with dirs := insertDir fs.dirs cid }, n1, 0, 0)) ∧
    (∀ env cache fs cid b cj c1 n1 ws1 url,
      get_channel_json env cache cid false = (.ok (.channel cj), c1, n1, ws1) →
      lookupProfile fs.profiles cid = none →
      pickThumbnail cj.thumbnails = some url →
      url ≠ "" →
      save_channel_branding env cache fs cid b =
        (.ok (), c1,
         ⟨insertDir fs.dirs cid, fs.profiles ++ [(cid, .fromUrl url 100 100)]⟩,
         n1, 1, 1)) := by
  refine ⟨?_, ?_, ?_, ?_, ?_⟩
  · intro ts u h
    simp [pickThumbnail, h]
  · intro ts h
    simp [pickThumbnail, h]
  · intro env cache fs cid b cj c1 n1 ws1 hch hprof hthumb
    unfold save_channel_branding
    rw [hch]
    simp only [hprof, hthumb]
  · intro env cache fs cid b cj c1 n1 ws1 hch hprof hthumb
    unfold save_channel_branding
    rw [hch]
    simp [hprof, hthumb]
  · intro env cache fs cid b cj c1 n1 ws1 url hch hprof hthumb hurl
    unfold save_channel_branding
    rw [hch]
    simp only [hprof, hthumb, if_neg hurl]

theorem C9_witness :
    pickThumbnail [("medium", "urlM"), ("default", "urlD")] = some "urlM" ∧
    pickThumbnail [("default", "url88")] = some "url88" ∧
    save_channel_branding envW9 cacheNone ⟨[], []⟩ "cX" false =
      (.error .thumbnailNotFound,
       save_json cacheNone "channel_cX" (.channel ⟨"cX", [], "UPX"⟩),
       ⟨["cX"], []⟩, 1, 0, 0) ∧
    save_channel_branding envW9 cacheNone ⟨[], []⟩ "cZ" false =
      (.error .thumbnailNotFound,
       save_json cacheNone "channel_cZ" (.channel ⟨"cZ", [("medium", "")], "UPZ"⟩),
       ⟨["cZ"], []⟩, 1, 0, 0) ∧
    save_channel_branding envW9 cacheNone ⟨[], []⟩ "cY" false =
      (.ok (),
       save_json cacheNone "channel_cY" (.channel ⟨"cY", [("medium", "urlM")], "UPY"⟩),
       ⟨["cY"], [("cY", .fromUrl "urlM" 100 100)]⟩, 1, 1, 1) :=
  ⟨C9_thumbnail_preference_and_failure.1 [("medium", "urlM"), ("default", "urlD")]
      "urlM" rfl,
   (C9_thumbnail_preference_and_failure.2.1 [("default", "url88")] rfl).trans rfl,
   C9_thumbnail_preference_and_failure.2.2.1 envW9 cacheNone ⟨[], []⟩ "cX" false
      ⟨"cX", [], "UPX"⟩
      (save_json cacheNone "channel_cX" (.channel ⟨"cX", [], "UPX"⟩)) 1
      [("channel_cX", .channel ⟨"cX", [], "UPX"⟩)] rfl rfl rfl,
   C9_thumbnail_preference_and_failure.2.2.2.1 envW9 cacheNone ⟨[], []⟩ "cZ" false
      ⟨"cZ", [("medium", "")], "UPZ"⟩
      (save_json cacheNone "channel_cZ" (.channel ⟨"cZ", [("medium", "")], "UPZ"⟩)) 1
      [("channel_cZ", .channel ⟨"cZ", [("medium", "")], "UPZ"⟩)] rfl rfl rfl,
   C9_thumbnail_preference_and_failure.2.2.2.2 envW9 cacheNone ⟨[], []⟩ "cY" false
      ⟨"cY", [("medium", "urlM")], "UPY"⟩
      (save_json cacheNone "channel_cY" (.channel ⟨"cY", [("medium", "urlM")], "UPY"⟩)) 1
      [("channel_cY", .channel ⟨"cY", [("medium", "urlM")], "UPY"⟩)] "urlM" rfl rfl rfl
      (by decide)⟩

/-- Claim C10: when the channel's profile image file already exists,
`save_channel_branding` returns successfully with the profile files
untouched and zero downloads and zero resizes — for every channel record,
including one whose thumbnail set contains neither "medium" nor "default" —
while still performing the channel-record access (final cache and request
count are those of `get_channel_json`) and creating the per-channel
directory. -/
theorem C10_existing_profile_untouched (env : Env) (cache : Cache) (fs : FS)
    (cid : String) (b : Bool) (cj : ChannelJson) (c1 : Cache) (n1 : Nat)
    (ws1 : List (String × CacheVal)) (f : ProfileFile)
    (hch : get_channel_json env cache cid false = (.ok (.channel cj), c1, n1, ws1))
    (hprof : lookupProfile fs.profiles cid = some f) :
    save_channel_branding env cache fs cid b =
      (.ok (), c1, { fs with dirs := insertDir fs.dirs cid }, n1, 0, 0) := by
  unfold save_channel_branding
  rw [hch]
  simp only [hprof]

theorem C10_witness :
    save_channel_branding envW9 cacheNone fsW9 "cX" true =
      (.ok (),
       save_json cacheNone "channel_cX" (.channel ⟨"cX", [], "UPX"⟩),
       ⟨["cX"], [("cX", .preexisting "old-bytes")]⟩, 1, 0, 0) :=
  C10_existing_profile_untouched envW9 cacheNone fsW9 "cX" true
    ⟨"cX", [], "UPX"⟩
    (save_json cacheNone "channel_cX" (.channel ⟨"cX", [], "UPX"⟩)) 1
    [("channel_cX", .channel ⟨"cX", [], "UPX"⟩)]
    (.preexisting "old-bytes") rfl rfl

end OpenZimYoutube
